import Mathlib

/-!
# Verification of the SOLARA provider adapter

A shallow embedding of `src/apps/gateway/providers/solara.ts`: the
`SolaraProvider.call` retry loop and the `createSolaraProvider` factory.

The transport (node-fetch) is an external collaborator; one whole `call`
is modelled as a pure function of the per-attempt transport behaviour
(`transport : Nat → FetchResult`), returning the trace of observable
events (console logs, outbound transport invocations) together with the
call's outcome.

Two consequences of line 13, `import { setTimeout } from
'timers/promises'`, shape the embedding. That import shadows the global
callback-style `setTimeout` with the promise-returning one, which
fulfils a promise with its second argument after the delay and never
invokes it as a function:

* Line 44, `setTimeout(this.timeoutMs, () => controller.abort())`: the
  abort callback is only the fulfilment value of an unawaited promise
  and never runs, so the controller is never aborted, the signal handed
  to fetch on line 59 never fires, and `clearTimeout` on the returned
  promise (line 62) is a no-op. The per-attempt deadline therefore has
  no effect, and fetch can never reject with an `AbortError`.
* Line 100, `await new Promise(resolve => setTimeout(resolve, delay))`:
  `resolve` is passed as the delay argument and is never invoked, so the
  outer promise never settles and the `await` pends forever. Whenever
  the retry branch is taken, the call logs the computed delay and then
  hangs: no backoff sleep ever completes and no further attempt runs.

The embedding models the first fact as the never-aborted signal (see
`abortCallbackRuns`) and the second as the `CallOutcome.hang` outcome.
-/

/-- Token usage counters as parsed from the provider response body
(`data.usage?.prompt_tokens` etc.; each may be absent). -/
structure Usage where
  prompt_tokens : Option Nat
  completion_tokens : Option Nat
  total_tokens : Option Nat
deriving DecidableEq, Repr

/-- The outbound HTTP request the adapter hands to `fetch` (solara.ts
lines 46-60): URL, Authorization header built from the API key, and the
JSON body fields `model`, `messages[0].content`, `temperature`,
`max_tokens`, `stream`. -/
structure OutboundRequest where
  url : String
  authorization : String
  model : String
  content : String
  temperature : ℚ
  max_tokens : Int
  stream : Bool
deriving DecidableEq

/-- A JavaScript error value as observed by the `catch` block: its
`name` and `message` fields. -/
structure JsError where
  name : String
  message : String
deriving DecidableEq, Repr

/-- What one `fetch` invocation yields: either a response (status,
body text used for the error message, the parsed
`choices[0].message.content` field when present, and the usage block),
or a thrown error. -/
inductive FetchResult where
  | response (status : Nat) (bodyText : String) (content : Option String) (usage : Usage)
  | thrown (name : String) (message : String)
deriving DecidableEq

/-- The `response.ok` predicate of fetch: status in the range 200-299. -/
def responseOk (status : Nat) : Bool :=
  decide (200 ≤ status ∧ status < 300)

/-- The body of one `try` block of the loop (solara.ts lines 46-85):
a non-ok response throws `SOLARA API error (status): body`; an ok
response with missing or empty content (JS `!content`) throws
`SOLARA returned empty response`; otherwise the content and usage are
produced. A `fetch` exception propagates as the thrown error itself. -/
def attemptResult : FetchResult → Except JsError (String × Usage)
  | FetchResult.thrown n m => Except.error ⟨n, m⟩
  | FetchResult.response status body content usage =>
    if responseOk status then
      match content with
      | some c =>
        if c.isEmpty then
          Except.error ⟨"Error", "SOLARA returned empty response"⟩
        else
          Except.ok (c, usage)
      | none => Except.error ⟨"Error", "SOLARA returned empty response"⟩
    else
      Except.error ⟨"Error", "SOLARA API error (" ++ toString status ++ "): " ++ body⟩

/-- The `SolaraProvider` class fields (constructor, solara.ts lines
26-31). `maxRetries` is an `Int` because it is parsed from the
environment and nothing in the code keeps it nonnegative. -/
structure SolaraProvider where
  apiKey : String
  model : String
  timeoutMs : Nat
  maxRetries : Int
deriving DecidableEq

/-- The `SolaraConfig` interface (solara.ts lines 15-23). `call` only
destructures `prompt`, `temperature` and `maxTokens`; the other fields
exist on the interface but are ignored by `call`, which uses the class
fields instead. The interface declares `temperature?` twice; a Lean
structure carries it once. -/
structure SolaraConfig where
  prompt : String
  model : String
  apiKey : String
  timeoutMs : Option Nat
  temperature : Option ℚ
  maxTokens : Option Int
deriving DecidableEq

/-- The request built inside the loop: defaults `temperature = 0.2`
and `maxTokens = 1024` come from the destructuring on line 34; the
body and headers from lines 46-60. -/
def outboundRequest (p : SolaraProvider) (config : SolaraConfig) : OutboundRequest :=
  { url := "https://api.deepseek.com/v1/chat/completions"
    authorization := "Bearer " ++ p.apiKey
    model := p.model
    content := config.prompt
    temperature := config.temperature.getD (0.2 : ℚ)
    max_tokens := config.maxTokens.getD 1024
    stream := false }

/-- One observable event of a `call` invocation: the attempt-banner
`console.log`, the `fetch` invocation itself, the success-usage
`console.log`, the failure `console.error`, and the retry `console.log`
that reports the computed delay. The `sleep` constructor stands for a
completed backoff sleep; it is retained in the vocabulary precisely so
theorems can state that the source never completes one — the awaited
promise of line 100 never resolves. -/
inductive Event where
  | logAttempt (attempt : Nat) (maxRetries : Int)
  | transportCall (req : OutboundRequest)
  | logSuccess (model : String) (usage : Usage)
  | logError (attempt : Nat) (message : String)
  | logRetry (delay : Nat)
  | sleep (delay : Nat)
deriving DecidableEq

/-- How a `call` invocation ends: return of the content string; the
`SOLARA timeout after Xms` throw of line 93 (only reachable if an
attempt's error is named `AbortError`); the final `SOLARA failed after
N attempts: lastError?.message` throw of line 105, recording
`maxRetries` and the last error's message (`none` when no attempt ran);
or `hang` — the `await` of the backoff promise on line 100, whose
`resolve` is never invoked, so the async call never settles: it neither
returns nor throws. -/
inductive CallOutcome where
  | ok (content : String)
  | timeoutError (timeoutMs : Nat)
  | failedAfter (maxRetries : Int) (lastErrorMessage : Option String)
  | hang
deriving DecidableEq

/-- The `for` loop of `call` (solara.ts lines 38-103), by recursion on
the number of remaining iterations; `attempt` is the loop counter and
`lastError` the variable of line 36. Each iteration logs the attempt
banner and invokes the transport. On success the content is returned at
once. On failure, an error named `AbortError` is rethrown as the
timeout error (lines 92-94); otherwise, when `attempt < maxRetries - 1`
(line 96), the delay `2 ^ attempt * 1000` is computed and logged
(lines 98-99) and the call then awaits the promise of line 100 — whose
`resolve` is never called, because `setTimeout` there is the
promise-returning one of timers/promises — so the call hangs forever:
no sleep completes and no next attempt runs. Only a failure on the
final attempt falls through the loop to the failed-after throw of
line 105. -/
def callLoop (p : SolaraProvider) (req : OutboundRequest) (transport : Nat → FetchResult) :
    Nat → Nat → Option JsError → List Event × CallOutcome
  | _, 0, lastError =>
    ([], CallOutcome.failedAfter p.maxRetries (lastError.map JsError.message))
  | attempt, r + 1, _ =>
    match attemptResult (transport attempt) with
    | Except.ok (c, u) =>
      ([Event.logAttempt attempt p.maxRetries, Event.transportCall req,
        Event.logSuccess p.model u],
       CallOutcome.ok c)
    | Except.error e =>
      if e.name = "AbortError" then
        ([Event.logAttempt attempt p.maxRetries, Event.transportCall req,
          Event.logError attempt e.message],
         CallOutcome.timeoutError p.timeoutMs)
      else
        if (attempt : Int) < p.maxRetries - 1 then
          ([Event.logAttempt attempt p.maxRetries, Event.transportCall req,
            Event.logError attempt e.message, Event.logRetry (2 ^ attempt * 1000)],
           CallOutcome.hang)
        else
          (Event.logAttempt attempt p.maxRetries :: Event.transportCall req ::
            Event.logError attempt e.message ::
            (callLoop p req transport (attempt + 1) r (some e)).1,
           (callLoop p req transport (attempt + 1) r (some e)).2)

/-- The method `SolaraProvider.call` (solara.ts lines 33-106): build
the request once from the config and run the loop from attempt 0 with
`maxRetries` iterations available and `lastError = null`. -/
def SolaraProvider.call (p : SolaraProvider) (config : SolaraConfig)
    (transport : Nat → FetchResult) : List Event × CallOutcome :=
  callLoop p (outboundRequest p config) transport 0 p.maxRetries.toNat none

/-- Events that are transport invocations. -/
def isTransportEvent : Event → Bool
  | Event.transportCall _ => true
  | _ => false

/-- Number of transport invocations recorded in a trace. -/
def transportCount (trace : List Event) : Nat :=
  (trace.filter isTransportEvent).length

/-- Events that are attempt banners (one per attempt started). -/
def isAttemptLog : Event → Bool
  | Event.logAttempt _ _ => true
  | _ => false

/-- Number of attempts started, per the attempt-banner log lines. -/
def attemptLogCount (trace : List Event) : Nat :=
  (trace.filter isAttemptLog).length

/-- The delay of a completed sleep event, if the event is one. -/
def sleepDelayOf : Event → Option Nat
  | Event.sleep d => some d
  | _ => none

/-- The sequence of backoff delays actually slept to completion, in
order. -/
def sleepDelays (trace : List Event) : List Nat :=
  trace.filterMap sleepDelayOf

/-- The delay of a retry log line, if the event is one. -/
def retryDelayOf : Event → Option Nat
  | Event.logRetry d => some d
  | _ => none

/-- The delays reported by the retry log lines, in order (computed and
logged on lines 98-99, never actually slept). -/
def retryLogDelays (trace : List Event) : List Nat :=
  trace.filterMap retryDelayOf

/-- Events that are console output (logs), as opposed to the transport
invocation itself or a sleep. -/
def isLogEvent : Event → Bool
  | Event.transportCall _ => false
  | Event.sleep _ => false
  | _ => true

/-- The console output of a trace. -/
def logsOf (trace : List Event) : List Event :=
  trace.filter isLogEvent

/-- A transport result that is an HTTP 5xx response (the spec's
`ServerError` label). -/
def isServerError : FetchResult → Bool
  | FetchResult.response status _ _ _ => decide (500 ≤ status ∧ status ≤ 599)
  | FetchResult.thrown _ _ => false

/-- A transport result on which the attempt fails with an error whose
name is not `AbortError` (HTTP error statuses, missing content,
non-abort exceptions). -/
def isNonAbortFailure (fr : FetchResult) : Bool :=
  match attemptResult fr with
  | Except.error e => decide (e.name ≠ "AbortError")
  | Except.ok _ => false

/-- Outcome classifier: did the call return content? -/
def isOkOutcome : CallOutcome → Bool
  | CallOutcome.ok _ => true
  | _ => false

/-- Outcome classifier: did the call end in the timeout throw of
line 93? -/
def isTimeoutOutcome : CallOutcome → Bool
  | CallOutcome.timeoutError _ => true
  | _ => false

/-- Outcomes that throw a JS error to the caller: the timeout throw of
line 93 or the failed-after throw of line 105. A returned content is
not a raise, and a hung call never settles at all. -/
def raisesError : CallOutcome → Bool
  | CallOutcome.timeoutError _ => true
  | CallOutcome.failedAfter _ _ => true
  | _ => false

/-- Whether the abort callback armed on line 44 ever runs. It never
does: `setTimeout` there is the promise-returning one of
timers/promises (imported on line 13), which fulfils a promise with the
callback as a mere value after the delay and never invokes it; the
promise is unawaited and `clearTimeout` on it (line 62) is a no-op. The
signal handed to fetch on line 59 is therefore never aborted. -/
def abortCallbackRuns : Bool := false

/-- Whether an attempt's wall-clock duration exceeds the configured
per-attempt deadline `timeoutMs`. The embedded call takes no duration
input because durations cannot influence it: the only mechanism wired
to the deadline is the line-44 abort timer, and its callback never
runs. -/
def exceedsDeadline (p : SolaraProvider) (durationMs : Nat) : Bool :=
  decide (p.timeoutMs < durationMs)

/-! ## The factory `createSolaraProvider` (solara.ts lines 109-117)

The factory reads four `process.env` variables and constructs a
`SolaraProvider`. To make the construction and configuration-read
behaviour observable, the process environment is a record of the four
variables and a `ProcessState` counts constructions performed and
environment-variable reads issued. -/

/-- The four environment variables the factory reads. -/
structure Env where
  SOLARA_API_KEY : Option String
  SOLARA_MODEL : Option String
  SOLARA_TIMEOUT_MS : Option String
  SOLARA_MAX_RETRIES : Option String
deriving DecidableEq

/-- Observable side effects of factory calls within one process:
how many `new SolaraProvider(...)` constructions ran and how many
environment-variable reads were issued. -/
structure ProcessState where
  constructions : Nat
  envReads : Nat
deriving DecidableEq

/-- JavaScript `v || d` on an environment read: the default is used
when the variable is absent or the empty string. -/
def jsOrDefault (v : Option String) (d : String) : String :=
  match v with
  | some s => if s.isEmpty then d else s
  | none => d

/-- The factory `createSolaraProvider` (solara.ts lines 110-117): reads
`SOLARA_API_KEY` (non-null-asserted), `SOLARA_MODEL`,
`SOLARA_TIMEOUT_MS` and `SOLARA_MAX_RETRIES` — four environment reads —
and constructs a fresh `SolaraProvider`. `parseInt` on a non-numeric
string is modelled as 0. Despite the `Export singleton instance`
comment in the source, every invocation constructs anew. -/
def createSolaraProvider (env : Env) (st : ProcessState) : SolaraProvider × ProcessState :=
  ({ apiKey := env.SOLARA_API_KEY.getD ""
     model := jsOrDefault env.SOLARA_MODEL "deepseek-r1"
     timeoutMs := ((jsOrDefault env.SOLARA_TIMEOUT_MS "20000").toNat?).getD 0
     maxRetries := ((jsOrDefault env.SOLARA_MAX_RETRIES "3").toInt?).getD 0 },
   { constructions := st.constructions + 1, envReads := st.envReads + 4 })

/-! ## Concrete fixtures used by counterexamples and witnesses -/

/-- A provider with the source's defaults: `maxRetries = 3`,
`timeoutMs = 20000`. -/
def pEx : SolaraProvider := ⟨"key-1", "deepseek-r1", 20000, 3⟩

/-- A provider configured with `maxRetries = -2` (e.g. from
`SOLARA_MAX_RETRIES=-2`). -/
def pExNeg : SolaraProvider := ⟨"key-1", "deepseek-r1", 20000, -2⟩

/-- A well-formed request config leaving `temperature` and
`maxTokens` to their defaults. -/
def cfgEx : SolaraConfig := ⟨"hello", "deepseek-r1", "key-1", none, none, none⟩

/-- A config that violates every validation rule the spec demands:
empty prompt, temperature 5 outside 0.0-2.0, and maxTokens -7 not a
positive integer. -/
def cfgInvalid : SolaraConfig := ⟨"", "deepseek-r1", "key-1", none, some 5, some (-7)⟩

/-- The empty usage block. -/
def usage0 : Usage := ⟨none, none, none⟩

/-- A transport whose every attempt yields HTTP 400 (the spec's
`ClientError` label: 4xx other than 429). -/
def transport400 : Nat → FetchResult :=
  fun _ => FetchResult.response 400 "bad request" none usage0

/-- A transport whose every attempt yields HTTP 503 (the spec's
`ServerError` label). -/
def transport503 : Nat → FetchResult :=
  fun _ => FetchResult.response 503 "unavailable" none usage0

/-- A transport whose every attempt succeeds with content `answer`. -/
def transportOk : Nat → FetchResult :=
  fun _ => FetchResult.response 200 "ok-body" (some "answer") usage0

/-- A transport that fails with HTTP 503 on attempts 0 and 1 and
succeeds with content `answer` from attempt 2 on. -/
def transportSucc2 : Nat → FetchResult :=
  fun i => if i < 2 then FetchResult.response 503 "unavailable" none usage0
           else FetchResult.response 200 "" (some "answer") usage0

/-- A concrete environment for the factory. -/
def envEx : Env := ⟨some "secret-key", none, none, none⟩

/-! ## Classification lemmas -/

/-- A response outside 200-299 makes the attempt fail with the
`SOLARA API error` message. -/
lemma attemptResult_api_error (s : Nat) (b : String) (c : Option String) (u : Usage)
    (h : ¬ (200 ≤ s ∧ s < 300)) :
    attemptResult (FetchResult.response s b c u)
      = Except.error ⟨"Error", "SOLARA API error (" ++ toString s ++ "): " ++ b⟩ := by
  simp [attemptResult, responseOk, h]

/-- Destructing a `ServerError` transport result. -/
lemma isServerError_spec (fr : FetchResult) (h : isServerError fr = true) :
    ∃ s b c u, fr = FetchResult.response s b c u ∧ 500 ≤ s ∧ s ≤ 599 := by
  cases fr with
  | response s b c u =>
    have h2 : 500 ≤ s ∧ s ≤ 599 := by simpa [isServerError] using h
    exact ⟨s, b, c, u, rfl, h2.1, h2.2⟩
  | thrown n m => simp [isServerError] at h

/-- Destructing a non-abort failure: the attempt fails with an error
whose name is not `AbortError`. -/
lemma isNonAbortFailure_spec (fr : FetchResult) (h : isNonAbortFailure fr = true) :
    ∃ e, attemptResult fr = Except.error e ∧ e.name ≠ "AbortError" := by
  unfold isNonAbortFailure at h
  cases h2 : attemptResult fr with
  | ok v => rw [h2] at h; simp at h
  | error e =>
    rw [h2] at h
    simp at h
    exact ⟨e, rfl, h⟩

/-- A server-error response is a non-abort failure. -/
lemma isNonAbortFailure_of_isServerError (fr : FetchResult) (h : isServerError fr = true) :
    isNonAbortFailure fr = true := by
  obtain ⟨s, b, c, u, rfl, h5, h9⟩ := isServerError_spec fr h
  unfold isNonAbortFailure
  rw [attemptResult_api_error s b c u (by omega)]
  simp

/-- Every error produced from a response (as opposed to a thrown fetch
exception) carries the name `Error`: both the non-ok throw of line 66
and the empty-content throw of line 73 build plain `Error` objects. -/
lemma attemptResult_response_error_name (s : Nat) (b : String) (c : Option String)
    (u : Usage) (e : JsError)
    (h : attemptResult (FetchResult.response s b c u) = Except.error e) :
    e.name = "Error" := by
  by_cases hok : 200 ≤ s ∧ s < 300
  · cases c with
    | none =>
      simp [attemptResult, responseOk, hok] at h
      rw [← h]
    | some cc =>
      by_cases hcc : cc.isEmpty
      · simp [attemptResult, responseOk, hok, hcc] at h
        rw [← h]
      · simp [attemptResult, responseOk, hok, hcc] at h
  · simp [attemptResult, responseOk, hok] at h
    rw [← h]

/-- An attempt can only fail with an error named `AbortError` if the
transport itself threw one: response-derived errors are named
`Error`. -/
lemma abortError_source (fr : FetchResult) (e : JsError)
    (h : attemptResult fr = Except.error e) (hn : e.name = "AbortError") :
    fr = FetchResult.thrown "AbortError" e.message := by
  cases fr with
  | response s b c u =>
    have hname := attemptResult_response_error_name s b c u e h
    rw [hname] at hn
    exact absurd hn (by decide)
  | thrown n m =>
    cases e with
    | mk en em =>
      simp [attemptResult] at h
      obtain ⟨h1, h2⟩ := h
      subst h1
      subst h2
      simp_all

/-! ## Loop lemmas -/

/-- One-step unfolding of the loop on a success. -/
lemma callLoop_step_ok (p : SolaraProvider) (req : OutboundRequest)
    (transport : Nat → FetchResult) (attempt r : Nat) (le : Option JsError)
    (c : String) (u : Usage)
    (he : attemptResult (transport attempt) = Except.ok (c, u)) :
    callLoop p req transport attempt (r + 1) le
      = ([Event.logAttempt attempt p.maxRetries, Event.transportCall req,
          Event.logSuccess p.model u],
         CallOutcome.ok c) := by
  conv_lhs => rw [callLoop]
  rw [he]

/-- One-step unfolding of the loop on a non-abort failure with attempts
remaining: the delay is logged and the call hangs at the backoff. -/
lemma callLoop_step_hang (p : SolaraProvider) (req : OutboundRequest)
    (transport : Nat → FetchResult) (attempt r : Nat) (le : Option JsError)
    (e : JsError) (he : attemptResult (transport attempt) = Except.error e)
    (hname : e.name ≠ "AbortError")
    (hc : (attempt : Int) < p.maxRetries - 1) :
    callLoop p req transport attempt (r + 1) le
      = ([Event.logAttempt attempt p.maxRetries, Event.transportCall req,
          Event.logError attempt e.message, Event.logRetry (2 ^ attempt * 1000)],
         CallOutcome.hang) := by
  conv_lhs => rw [callLoop]
  rw [he]
  simp [hname, hc]

/-- One-step unfolding of the loop on a non-abort failure of the final
attempt, keeping the recursive call folded. -/
lemma callLoop_step_final (p : SolaraProvider) (req : OutboundRequest)
    (transport : Nat → FetchResult) (attempt r : Nat) (le : Option JsError)
    (e : JsError) (he : attemptResult (transport attempt) = Except.error e)
    (hname : e.name ≠ "AbortError")
    (hc : ¬ ((attempt : Int) < p.maxRetries - 1)) :
    callLoop p req transport attempt (r + 1) le
      = (Event.logAttempt attempt p.maxRetries :: Event.transportCall req ::
          Event.logError attempt e.message ::
          (callLoop p req transport (attempt + 1) r (some e)).1,
         (callLoop p req transport (attempt + 1) r (some e)).2) := by
  conv_lhs => rw [callLoop]
  rw [he]
  simp [hname, hc]

/-- Every iteration of the loop with fuel left performs at least one
transport invocation. -/
lemma one_le_transportCount_callLoop (p : SolaraProvider) (req : OutboundRequest)
    (transport : Nat → FetchResult) (attempt r : Nat) (le : Option JsError) :
    1 ≤ transportCount (callLoop p req transport attempt (r + 1) le).1 := by
  cases h : attemptResult (transport attempt) with
  | ok v =>
    obtain ⟨c, u⟩ := v
    simp [callLoop, h, transportCount, isTransportEvent]
  | error e =>
    by_cases hn : e.name = "AbortError"
    · simp [callLoop, h, hn, transportCount, isTransportEvent]
    · by_cases hc : (attempt : Int) < p.maxRetries - 1
      · simp [callLoop, h, hn, hc, transportCount, isTransportEvent]
      · simp [callLoop, h, hn, hc, transportCount, isTransportEvent]

/-- Every transport invocation in a loop trace carries the one request
built before the loop. -/
lemma callLoop_transport_req (p : SolaraProvider) (req : OutboundRequest)
    (transport : Nat → FetchResult) :
    ∀ (r attempt : Nat) (le : Option JsError) (x : OutboundRequest),
      Event.transportCall x ∈ (callLoop p req transport attempt r le).1 → x = req := by
  intro r
  induction r with
  | zero =>
    intro attempt le x hx
    simp [callLoop] at hx
  | succ r ih =>
    intro attempt le x hx
    cases h : attemptResult (transport attempt) with
    | ok v =>
      obtain ⟨c, u⟩ := v
      simp [callLoop, h] at hx
      exact hx
    | error e =>
      by_cases hn : e.name = "AbortError"
      · simp [callLoop, h, hn] at hx
        exact hx
      · by_cases hc : (attempt : Int) < p.maxRetries - 1
        · simp [callLoop, h, hn, hc] at hx
          exact hx
        · simp [callLoop, h, hn, hc] at hx
          rcases hx with hx | hx
          · exact hx
          · exact ih (attempt + 1) (some e) x hx

/-- If no attempt's transport behaviour is a thrown `AbortError`, the
loop can never end in the timeout throw of line 93. -/
lemma callLoop_no_timeout (p : SolaraProvider) (req : OutboundRequest)
    (transport : Nat → FetchResult)
    (hno : ∀ i m, transport i ≠ FetchResult.thrown "AbortError" m) :
    ∀ (r attempt : Nat) (le : Option JsError),
      isTimeoutOutcome (callLoop p req transport attempt r le).2 = false := by
  intro r
  induction r with
  | zero =>
    intro attempt le
    simp [callLoop, isTimeoutOutcome]
  | succ r ih =>
    intro attempt le
    cases h : attemptResult (transport attempt) with
    | ok v =>
      obtain ⟨c, u⟩ := v
      simp [callLoop, h, isTimeoutOutcome]
    | error e =>
      by_cases hn : e.name = "AbortError"
      · exact absurd (abortError_source (transport attempt) e h hn)
          (hno attempt e.message)
      · by_cases hc : (attempt : Int) < p.maxRetries - 1
        · simp [callLoop, h, hn, hc, isTimeoutOutcome]
        · rw [callLoop_step_final p req transport attempt r le e h hn hc]
          exact ih (attempt + 1) (some e)

/-- Log noninterference at loop level: two runs of the loop against
the same transport whose providers share `model` and `maxRetries`
produce identical console output, whatever their API keys, timeouts
and outbound requests (hence prompts) are. -/
lemma callLoop_logs (model : String) (tm tm' : Nat) (mr : Int) (key key' : String)
    (req req' : OutboundRequest) (transport : Nat → FetchResult) :
    ∀ (r attempt : Nat) (le : Option JsError),
      logsOf (callLoop ⟨key, model, tm, mr⟩ req transport attempt r le).1
        = logsOf (callLoop ⟨key', model, tm', mr⟩ req' transport attempt r le).1 := by
  intro r
  induction r with
  | zero =>
    intro attempt le
    simp [callLoop, logsOf]
  | succ r ih =>
    intro attempt le
    cases h : attemptResult (transport attempt) with
    | ok v =>
      obtain ⟨c, u⟩ := v
      simp [callLoop, h, logsOf, isLogEvent]
    | error e =>
      by_cases hn : e.name = "AbortError"
      · simp [callLoop, h, hn, logsOf, isLogEvent]
      · by_cases hc : (attempt : Int) < mr - 1
        · simp [callLoop, h, hn, hc, logsOf, isLogEvent]
        · rw [callLoop_step_final ⟨key, model, tm, mr⟩ req transport attempt r le e h hn hc]
          rw [callLoop_step_final ⟨key', model, tm', mr⟩ req' transport attempt r le e h hn hc]
          simp only [logsOf, List.filter_cons]
          have hrec := ih (attempt + 1) (some e)
          simp only [logsOf] at hrec
          simp [isLogEvent, hrec]

/-! ## Claims -/

/-- Claim C1, counterexample. The claim says a first attempt failing
with a non-retryable label (here `ClientError`: HTTP 400) raises
immediately after exactly 1 attempt. With `maxRetries = 3` the call
does perform exactly 1 transport invocation, but it never raises
anything: the retry branch is taken and the call hangs forever at the
backoff await of line 100, whose promise never resolves. -/
theorem claim_C1_counterexample :
    (SolaraProvider.call pEx cfgEx transport400).2 = CallOutcome.hang ∧
    raisesError (SolaraProvider.call pEx cfgEx transport400).2 = false ∧
    transportCount (SolaraProvider.call pEx cfgEx transport400).1 = 1 :=
  ⟨by decide, by decide, by decide⟩

/-- Claim C1, amended: a first attempt failing with `ClientError` or
`Malformed` (or any failure whose error is not an AbortError) takes the
same path as every other failure. With `maxRetries ≥ 2` the retry
branch is taken: the call performs exactly 1 transport invocation,
logs the retry, and hangs forever at the broken backoff — it never
raises. Only with `maxRetries = 1` (the failure is already final) does
it raise, with the failed-after throw after the single attempt. -/
theorem claim_C1_amended (p : SolaraProvider) (cfg : SolaraConfig)
    (transport : Nat → FetchResult) (e : JsError)
    (h0 : attemptResult (transport 0) = Except.error e)
    (hn : e.name ≠ "AbortError") :
    (2 ≤ p.maxRetries →
      (SolaraProvider.call p cfg transport).2 = CallOutcome.hang ∧
      transportCount (SolaraProvider.call p cfg transport).1 = 1 ∧
      raisesError (SolaraProvider.call p cfg transport).2 = false) ∧
    (p.maxRetries = 1 →
      (SolaraProvider.call p cfg transport).2
        = CallOutcome.failedAfter 1 (some e.message) ∧
      transportCount (SolaraProvider.call p cfg transport).1 = 1) := by
  constructor
  · intro hr
    unfold SolaraProvider.call
    obtain ⟨m, hm⟩ : ∃ m, p.maxRetries.toNat = m + 1 := ⟨p.maxRetries.toNat - 1, by omega⟩
    rw [hm]
    rw [callLoop_step_hang p (outboundRequest p cfg) transport 0 m none e h0 hn (by omega)]
    refine ⟨rfl, ?_, rfl⟩
    simp [transportCount, isTransportEvent]
  · intro hr1
    unfold SolaraProvider.call
    have ht : p.maxRetries.toNat = 0 + 1 := by omega
    rw [ht]
    rw [callLoop_step_final p (outboundRequest p cfg) transport 0 0 none e h0 hn (by omega)]
    constructor
    · simp [callLoop, hr1]
    · simp [callLoop, transportCount, isTransportEvent]

/-- Claim C1, witness for the amended statement: HTTP 400 on attempt 0
with `maxRetries = 3` hangs after exactly 1 transport invocation and
raises nothing. -/
theorem claim_C1_witness :
    (SolaraProvider.call pEx cfgEx transport400).2 = CallOutcome.hang ∧
    transportCount (SolaraProvider.call pEx cfgEx transport400).1 = 1 ∧
    raisesError (SolaraProvider.call pEx cfgEx transport400).2 = false :=
  (claim_C1_amended pEx cfgEx transport400
    ⟨"Error", "SOLARA API error (400): bad request"⟩ rfl (by decide)).1 (by decide)

/-- Claim C2, counterexample. The claim says an attempt exceeding its
per-attempt deadline is classified as the retryable label `Timeout`
and, while attempts remain, the adapter proceeds to the next attempt.
Concretely: let attempt 0 of this call take 1,000,000 ms — far past the
20,000 ms deadline. The abort timer of line 44 never fires (its
callback is only a promise's fulfilment value), so the duration has no
effect: the attempt's HTTP 503 result is classified through the generic
error path with name `Error`, no timeout outcome occurs, and with
`maxRetries = 3` the adapter does not proceed to attempt 1 — it hangs
at the backoff after exactly 1 transport invocation. -/
theorem claim_C2_counterexample :
    exceedsDeadline pEx 1000000 = true ∧
    attemptResult (transport503 0)
      = Except.error ⟨"Error", "SOLARA API error (503): unavailable"⟩ ∧
    isTimeoutOutcome (SolaraProvider.call pEx cfgEx transport503).2 = false ∧
    transportCount (SolaraProvider.call pEx cfgEx transport503).1 = 1 ∧
    (SolaraProvider.call pEx cfgEx transport503).2 = CallOutcome.hang :=
  ⟨by decide, rfl, by decide, by decide, by decide⟩

/-- Claim C2, amended: exceeding the per-attempt deadline has no effect
at all. The abort callback armed on line 44 never runs
(`abortCallbackRuns = false`), so the fetch signal never aborts; since
fetch rejects with an `AbortError` only when its signal aborts, no
transport behaviour the program can exhibit throws one, and the timeout
branch of the catch block (lines 92-94) is unreachable: no call ever
ends in the `SOLARA timeout after Xms` throw. An attempt that overruns
its deadline is simply processed by whatever result the transport
eventually delivers. -/
theorem claim_C2_amended (p : SolaraProvider) (cfg : SolaraConfig)
    (transport : Nat → FetchResult)
    (hfetch : ∀ i m, transport i = FetchResult.thrown "AbortError" m →
      abortCallbackRuns = true) :
    isTimeoutOutcome (SolaraProvider.call p cfg transport).2 = false := by
  have hno : ∀ i m, transport i ≠ FetchResult.thrown "AbortError" m := by
    intro i m h
    have := hfetch i m h
    simp [abortCallbackRuns] at this
  unfold SolaraProvider.call
  exact callLoop_no_timeout p (outboundRequest p cfg) transport hno p.maxRetries.toNat 0 none

/-- Claim C2, witness for the amended statement: the all-503 transport
never yields a timeout outcome. -/
theorem claim_C2_witness :
    isTimeoutOutcome (SolaraProvider.call pEx cfgEx transport503).2 = false :=
  claim_C2_amended pEx cfgEx transport503
    (by intro i m h; simp [transport503] at h)

/-- Claim C3, counterexample. The claim says `maxRetries = 3` with
every attempt a `ServerError` gives exactly 3 attempts, 3 records, and
the `ExhaustedRetries` raise. On the code, attempt 0 fails, the retry
branch is taken, and the call hangs at the broken backoff: exactly 1
transport invocation, 1 attempt banner, and nothing is ever raised. -/
theorem claim_C3_counterexample :
    transportCount (SolaraProvider.call pEx cfgEx transport503).1 = 1 ∧
    (1 : Nat) ≠ 3 ∧
    raisesError (SolaraProvider.call pEx cfgEx transport503).2 = false :=
  ⟨by decide, by decide, by decide⟩

/-- Claim C3, amended: with `maxRetries = 3` and every attempt failing
with `ServerError` (HTTP 500-599), the call performs exactly 1
transport invocation and logs exactly 1 attempt banner, then hangs
forever at the first backoff (the await of line 100 never resolves);
the failed-after throw (the code's `ProviderCallFailed` /
`ExhaustedRetries`) is never reached, and no partial or empty
CallResult is returned — the call never settles. -/
theorem claim_C3_amended (p : SolaraProvider) (cfg : SolaraConfig)
    (transport : Nat → FetchResult)
    (hmr : p.maxRetries = 3)
    (hsrv : ∀ i, i < 3 → isServerError (transport i) = true) :
    transportCount (SolaraProvider.call p cfg transport).1 = 1 ∧
    attemptLogCount (SolaraProvider.call p cfg transport).1 = 1 ∧
    (SolaraProvider.call p cfg transport).2 = CallOutcome.hang ∧
    raisesError (SolaraProvider.call p cfg transport).2 = false ∧
    isOkOutcome (SolaraProvider.call p cfg transport).2 = false := by
  obtain ⟨e, he, hn⟩ := isNonAbortFailure_spec _
    (isNonAbortFailure_of_isServerError _ (hsrv 0 (by omega)))
  have ht : p.maxRetries.toNat = 2 + 1 := by omega
  unfold SolaraProvider.call
  rw [ht]
  rw [callLoop_step_hang p (outboundRequest p cfg) transport 0 2 none e he hn (by omega)]
  refine ⟨?_, ?_, rfl, rfl, rfl⟩
  · simp [transportCount, isTransportEvent]
  · simp [attemptLogCount, isAttemptLog]

/-- Claim C3, witness for the amended statement: the default provider
(`maxRetries = 3`) against a transport answering HTTP 503 on every
attempt. -/
theorem claim_C3_witness :
    transportCount (SolaraProvider.call pEx cfgEx transport503).1 = 1 ∧
    attemptLogCount (SolaraProvider.call pEx cfgEx transport503).1 = 1 ∧
    (SolaraProvider.call pEx cfgEx transport503).2 = CallOutcome.hang ∧
    raisesError (SolaraProvider.call pEx cfgEx transport503).2 = false ∧
    isOkOutcome (SolaraProvider.call pEx cfgEx transport503).2 = false :=
  claim_C3_amended pEx cfgEx transport503 rfl (by decide)

/-- Claim C4, counterexample. The claim says success on attempt 2 after
two retryable failures returns a CallResult with attemptCount 3. On the
code, attempt 0 fails with HTTP 503, the retry branch is taken, and the
call hangs forever at the backoff: attempt 2 is never reached, exactly
1 transport invocation occurs, and no CallResult is returned. -/
theorem claim_C4_counterexample :
    (SolaraProvider.call pEx cfgEx transportSucc2).2 = CallOutcome.hang ∧
    isOkOutcome (SolaraProvider.call pEx cfgEx transportSucc2).2 = false ∧
    transportCount (SolaraProvider.call pEx cfgEx transportSucc2).1 = 1 ∧
    (1 : Nat) ≠ 3 :=
  ⟨by decide, by decide, by decide, by decide⟩

/-- Claim C4, amended: only attempt 0 can ever be the first successful
attempt, because a retryable failure hangs the call at the broken
backoff before any later attempt. When attempt 0 yields present,
non-empty content (and `maxRetries ≥ 1`), the call returns that content
immediately with exactly 1 transport invocation. -/
theorem claim_C4_amended (p : SolaraProvider) (cfg : SolaraConfig)
    (transport : Nat → FetchResult) (c : String) (u : Usage)
    (hok : attemptResult (transport 0) = Except.ok (c, u))
    (hr : 0 < p.maxRetries) :
    (SolaraProvider.call p cfg transport).2 = CallOutcome.ok c ∧
    transportCount (SolaraProvider.call p cfg transport).1 = 1 := by
  unfold SolaraProvider.call
  obtain ⟨m, hm⟩ : ∃ m, p.maxRetries.toNat = m + 1 := ⟨p.maxRetries.toNat - 1, by omega⟩
  rw [hm]
  rw [callLoop_step_ok p (outboundRequest p cfg) transport 0 m none c u hok]
  exact ⟨rfl, by simp [transportCount, isTransportEvent]⟩

/-- Claim C4, witness for the amended statement: success on attempt 0
returns the content with exactly 1 transport invocation. -/
theorem claim_C4_witness :
    (SolaraProvider.call pEx cfgEx transportOk).2 = CallOutcome.ok "answer" ∧
    transportCount (SolaraProvider.call pEx cfgEx transportOk).1 = 1 :=
  claim_C4_amended pEx cfgEx transportOk "answer" usage0 rfl (by decide)

/-- Claim C5, counterexample. The claim says the delay slept before the
next attempt equals `1000 * 2 ^ attemptIndex`. With `maxRetries = 3`
and attempt 0 failing with HTTP 503, the delay 1000 ms is only computed
and logged; no backoff sleep ever completes and no next attempt occurs:
the call hangs with exactly 1 transport invocation. -/
theorem claim_C5_counterexample :
    sleepDelays (SolaraProvider.call pEx cfgEx transport503).1 = [] ∧
    retryLogDelays (SolaraProvider.call pEx cfgEx transport503).1 = [1000] ∧
    transportCount (SolaraProvider.call pEx cfgEx transport503).1 = 1 ∧
    (SolaraProvider.call pEx cfgEx transport503).2 = CallOutcome.hang :=
  ⟨by decide, by decide, by decide, by decide⟩

/-- Claim C5, amended: the delay is only computed and logged, never
slept. On a non-abort failure of attempt 0 with `maxRetries ≥ 2`, the
retry log reports `1000 * 2 ^ 0` ms (the formula's attempt-0 instance,
with the base interval hard-coded at 1000 ms on line 98 — the only
instance a call can ever produce, since the call then hangs at the
unresolvable backoff await); no backoff sleep completes — in
particular none after the final attempt — and the call never reaches
another attempt. -/
theorem claim_C5_amended (p : SolaraProvider) (cfg : SolaraConfig)
    (transport : Nat → FetchResult) (e : JsError)
    (h0 : attemptResult (transport 0) = Except.error e)
    (hn : e.name ≠ "AbortError")
    (hr : 2 ≤ p.maxRetries) :
    retryLogDelays (SolaraProvider.call p cfg transport).1 = [1000 * 2 ^ 0] ∧
    sleepDelays (SolaraProvider.call p cfg transport).1 = [] ∧
    (SolaraProvider.call p cfg transport).2 = CallOutcome.hang := by
  unfold SolaraProvider.call
  obtain ⟨m, hm⟩ : ∃ m, p.maxRetries.toNat = m + 1 := ⟨p.maxRetries.toNat - 1, by omega⟩
  rw [hm]
  rw [callLoop_step_hang p (outboundRequest p cfg) transport 0 m none e h0 hn (by omega)]
  refine ⟨?_, ?_, rfl⟩
  · simp [retryLogDelays, retryDelayOf]
  · simp [sleepDelays, sleepDelayOf]

/-- Claim C5, witness for the amended statement: HTTP 503 on attempt 0
with `maxRetries = 3` logs the delay 1000 ms and sleeps nothing. -/
theorem claim_C5_witness :
    retryLogDelays (SolaraProvider.call pEx cfgEx transport503).1 = [1000 * 2 ^ 0] ∧
    sleepDelays (SolaraProvider.call pEx cfgEx transport503).1 = [] ∧
    (SolaraProvider.call pEx cfgEx transport503).2 = CallOutcome.hang :=
  claim_C5_amended pEx cfgEx transport503
    ⟨"Error", "SOLARA API error (503): unavailable"⟩ rfl (by decide) (by decide)

/-- Claim C6, counterexample. The claim says an empty prompt (or
out-of-range temperature, or non-positive maxTokens) fails immediately
with `InvalidRequest`, zero transport invocations, attempt count 0.
On the code there is no validation at all: with an empty prompt,
temperature 5 and maxTokens -7, the transport is invoked once (then the
call hangs at the backoff after the 503 failure) and no error of any
kind — in particular no `InvalidRequest` — is raised. -/
theorem claim_C6_counterexample :
    transportCount (SolaraProvider.call pEx cfgInvalid transport503).1 = 1 ∧
    (1 : Nat) ≠ 0 ∧
    raisesError (SolaraProvider.call pEx cfgInvalid transport503).2 = false :=
  ⟨by decide, by decide, by decide⟩

/-- Claim C6, amended: `call` performs no request validation. For any
config — empty prompt, temperature outside 0.0-2.0, non-positive
maxTokens included — the normal retry loop runs: with
`maxRetries ≥ 1` at least one transport invocation occurs, and every
transport invocation forwards the supplied prompt, temperature and
maxTokens unchanged (after the destructuring defaults). -/
theorem claim_C6_amended (p : SolaraProvider) (cfg : SolaraConfig)
    (transport : Nat → FetchResult)
    (hr : 1 ≤ p.maxRetries) :
    1 ≤ transportCount (SolaraProvider.call p cfg transport).1 ∧
    ∀ x : OutboundRequest,
      Event.transportCall x ∈ (SolaraProvider.call p cfg transport).1 →
      x.content = cfg.prompt ∧
      x.temperature = cfg.temperature.getD (0.2 : ℚ) ∧
      x.max_tokens = cfg.maxTokens.getD 1024 := by
  constructor
  · unfold SolaraProvider.call
    obtain ⟨m, hm⟩ : ∃ m, p.maxRetries.toNat = m + 1 := ⟨p.maxRetries.toNat - 1, by omega⟩
    rw [hm]
    exact one_le_transportCount_callLoop p (outboundRequest p cfg) transport 0 m none
  · intro x hx
    have hreq := callLoop_transport_req p (outboundRequest p cfg) transport
      p.maxRetries.toNat 0 none x hx
    rw [hreq]
    exact ⟨rfl, rfl, rfl⟩

/-- Claim C6, witness for the amended statement: the invalid config
(empty prompt, temperature 5, maxTokens -7) still reaches the
transport. -/
theorem claim_C6_witness :
    1 ≤ transportCount (SolaraProvider.call pEx cfgInvalid transport503).1 :=
  (claim_C6_amended pEx cfgInvalid transport503 (by decide)).1

/-- Claim C7: the repository factory `createSolaraProvider` — despite
its `Export singleton instance` comment — constructs a fresh
`SolaraProvider` and re-reads all four environment variables on every
invocation: two successive calls construct 2 instances (not at most 1)
and issue 8 environment reads (not one 4-variable configuration
load). -/
theorem claim_C7_bug :
    (createSolaraProvider envEx (createSolaraProvider envEx ⟨0, 0⟩).2).2.constructions = 2 ∧
    (2 : Nat) ≠ 1 ∧
    (createSolaraProvider envEx (createSolaraProvider envEx ⟨0, 0⟩).2).2.envReads = 8 ∧
    (8 : Nat) ≠ 4 :=
  ⟨rfl, by decide, rfl, by decide⟩

/-- Claim C8: varying only the API credential (both the provider's
`apiKey` and the unused config `apiKey` field) and the prompt — all
other inputs and the transport's responses held equal — leaves the
emitted console/telemetry output identical: neither the credential
nor the prompt ever reaches a log event. -/
theorem claim_C8 (key key' prompt prompt' cfgKey cfgKey' model cfgModel : String)
    (tm : Nat) (mr : Int) (cfgTimeout : Option Nat) (temp : Option ℚ)
    (mtok : Option Int) (transport : Nat → FetchResult) :
    logsOf (SolaraProvider.call ⟨key, model, tm, mr⟩
        ⟨prompt, cfgModel, cfgKey, cfgTimeout, temp, mtok⟩ transport).1
      = logsOf (SolaraProvider.call ⟨key', model, tm, mr⟩
        ⟨prompt', cfgModel, cfgKey', cfgTimeout, temp, mtok⟩ transport).1 := by
  unfold SolaraProvider.call
  exact callLoop_logs model tm tm mr key key' _ _ transport mr.toNat 0 none

/-- Claim C9: every transport invocation of a call carries
`temperature = 0.2` when the caller omitted it and the caller's value
when supplied, and `max_tokens = 1024` when omitted and the caller's
value when supplied. -/
theorem claim_C9 (p : SolaraProvider) (cfg : SolaraConfig)
    (transport : Nat → FetchResult) (x : OutboundRequest)
    (hx : Event.transportCall x ∈ (SolaraProvider.call p cfg transport).1) :
    (cfg.temperature = none → x.temperature = (0.2 : ℚ)) ∧
    (∀ t, cfg.temperature = some t → x.temperature = t) ∧
    (cfg.maxTokens = none → x.max_tokens = 1024) ∧
    (∀ mt, cfg.maxTokens = some mt → x.max_tokens = mt) := by
  have hreq := callLoop_transport_req p (outboundRequest p cfg) transport
    p.maxRetries.toNat 0 none x hx
  rw [hreq]
  refine ⟨?_, ?_, ?_, ?_⟩
  · intro h
    simp [outboundRequest, h]
  · intro t h
    simp [outboundRequest, h]
  · intro h
    simp [outboundRequest, h]
  · intro mt h
    simp [outboundRequest, h]

/-- Claim C9, witness: with temperature and maxTokens omitted, the
request sent on attempt 0 uses the defaults 0.2 and 1024. -/
theorem claim_C9_witness :
    (outboundRequest pEx cfgEx).temperature = (0.2 : ℚ) ∧
    (outboundRequest pEx cfgEx).max_tokens = 1024 := by
  have hx : Event.transportCall (outboundRequest pEx cfgEx)
      ∈ (SolaraProvider.call pEx cfgEx transport400).1 := by
    unfold SolaraProvider.call
    rw [show pEx.maxRetries.toNat = 2 + 1 from rfl]
    rw [callLoop_step_hang pEx (outboundRequest pEx cfgEx) transport400 0 2 none
      ⟨"Error", "SOLARA API error (400): bad request"⟩ rfl (by decide) (by decide)]
    simp
  have h := claim_C9 pEx cfgEx transport400 (outboundRequest pEx cfgEx) hx
  exact ⟨h.1 rfl, h.2.2.1 rfl⟩

/-- Claim C10: when `maxRetries ≤ 0` the loop body never runs: the
call performs zero transport invocations (the whole trace is empty)
and throws the failed-after error directly with a `null` last error. -/
theorem claim_C10 (p : SolaraProvider) (cfg : SolaraConfig)
    (transport : Nat → FetchResult)
    (hr : p.maxRetries ≤ 0) :
    transportCount (SolaraProvider.call p cfg transport).1 = 0 ∧
    (SolaraProvider.call p cfg transport).2
      = CallOutcome.failedAfter p.maxRetries none := by
  have h0 : p.maxRetries.toNat = 0 := by omega
  unfold SolaraProvider.call
  rw [h0]
  exact ⟨rfl, rfl⟩

/-- Claim C10, witness: `maxRetries = -2` gives an empty trace and the
failed-after-(-2)-attempts throw with no recorded cause. -/
theorem claim_C10_witness :
    transportCount (SolaraProvider.call pExNeg cfgEx transport503).1 = 0 ∧
    (SolaraProvider.call pExNeg cfgEx transport503).2
      = CallOutcome.failedAfter (-2) none :=
  claim_C10 pExNeg cfgEx transport503 (by decide)
